import Mathlib

/-!
Verification of the dual-number automatic-differentiation library
(`duals.py`) against its specification.

The `Dual` class is embedded shallowly: Python floats become `ℚ`
(exact field arithmetic, so every identity the spec states "within
floating-point tolerance" is stated exactly), each operator method
becomes a Lean function, and the dynamic `isinstance` dispatch on the
operand becomes a match on an explicit `Operand` sum type.  A branch
that produces an error object (`return NotImplementedError(...)` in the
source) becomes the `.error` branch of `Except`.
-/

/-- A dual number: `real_part + dual_part * ε` with `ε ^ 2 = 0`.
Mirrors class `Dual` of `duals.py` (fields set in `__init__`). -/
structure Dual where
  real_part : ℚ
  dual_part : ℚ
deriving DecidableEq

/-- The operand of a binary operation on a dual number: either another
`Dual`, a numeric scalar (`int`/`float` in the source), or a value of
any other type, of which only the type name is relevant (it is all the
source reads from it). -/
inductive Operand where
  | dual (d : Dual)
  | scalar (c : ℚ)
  | other (typeName : String)
deriving DecidableEq

/-- Error values produced by the unsupported-type branches of the
operator methods.  The source builds `NotImplementedError` objects with
two distinct messages: one for a bad operand of `+`, `-`, `*`, `/`, and
one for a bad exponent of `**`. -/
inductive DualError where
  | unsupportedOperandType (typeName : String)
  | unsupportedExponentType (typeName : String)
deriving DecidableEq

namespace Dual

/-- `Dual.__add__`: componentwise for a dual operand; a scalar is added
to the real part only; any other operand yields the error value. -/
def add (self : Dual) : Operand → Except DualError Dual
  | .dual o => .ok ⟨self.real_part + o.real_part, self.dual_part + o.dual_part⟩
  | .scalar c => .ok ⟨self.real_part + c, self.dual_part⟩
  | .other t => .error (.unsupportedOperandType t)

/-- `Dual.__radd__ = Dual.__add__`: the reflected addition is the very
same routine (the source aliases the method object). -/
def radd : Dual → Operand → Except DualError Dual := add

/-- `Dual.__sub__`: componentwise for a dual operand; a scalar is
subtracted from the real part only; otherwise the error value. -/
def sub (self : Dual) : Operand → Except DualError Dual
  | .dual o => .ok ⟨self.real_part - o.real_part, self.dual_part - o.dual_part⟩
  | .scalar c => .ok ⟨self.real_part - c, self.dual_part⟩
  | .other t => .error (.unsupportedOperandType t)

/-- `Dual.__rsub__ = Dual.__sub__`: the source aliases the reflected
subtraction to the forward one, so `c - X` is computed as `X - c`. -/
def rsub : Dual → Operand → Except DualError Dual := sub

/-- `Dual.__mul__` exactly as written: for a dual operand the source
returns `Dual(self.real_part * other.real_part,
self.dual_part + other.dual_part)` (its own comment derives the product
rule `(a*c) + (c*b + a*d)ε`, but the code adds the dual parts); for a
scalar it scales both parts; otherwise the error value. -/
def mul (self : Dual) : Operand → Except DualError Dual
  | .dual o => .ok ⟨self.real_part * o.real_part, self.dual_part + o.dual_part⟩
  | .scalar c => .ok ⟨self.real_part * c, self.dual_part * c⟩
  | .other t => .error (.unsupportedOperandType t)

/-- `Dual.__rmul__ = Dual.__mul__`: reflected multiplication aliases
the forward routine. -/
def rmul : Dual → Operand → Except DualError Dual := mul

/-- `Dual.__truediv__`: for a dual operand, the quotient rule
`(a.dual * b.real - b.dual * a.real) / b.real ^ 2`; for a scalar, the
source divides the real part only and keeps the dual part unchanged;
otherwise the error value. -/
def truediv (self : Dual) : Operand → Except DualError Dual
  | .dual o =>
      .ok ⟨self.real_part / o.real_part,
        (self.dual_part * o.real_part - o.dual_part * self.real_part) / o.real_part ^ 2⟩
  | .scalar c => .ok ⟨self.real_part / c, self.dual_part⟩
  | .other t => .error (.unsupportedOperandType t)

/-- `Dual.__rdiv__`: for a dual operand it delegates to
`other.__truediv__(self)`; for a scalar `c` the source returns
`Dual(c / self.real_part, 1 / self.dual_part)`; otherwise the error
value. -/
def rdiv (self : Dual) : Operand → Except DualError Dual
  | .dual o => o.truediv (.dual self)
  | .scalar c => .ok ⟨c / self.real_part, 1 / self.dual_part⟩
  | .other t => .error (.unsupportedOperandType t)

end Dual

/-- The exponent operand of `Dual.__pow__`: a numeric scalar (modelled
as an integer, the exponents the demo and the spec exercise), another
dual number, or any other type. -/
inductive ExpOperand where
  | scalar (n : ℤ)
  | dual (d : Dual)
  | other (typeName : String)
deriving DecidableEq

namespace Dual

/-- `Dual.__pow__`: for a numeric exponent `n`, the power rule
`Dual(real ^ n, n * dual * real ^ (n - 1))`; a dual exponent (or any
other type) falls through to the unsupported-exponent error value. -/
def dpow (self : Dual) : ExpOperand → Except DualError Dual
  | .scalar n =>
      .ok ⟨self.real_part ^ n, (n : ℚ) * self.dual_part * self.real_part ^ (n - 1)⟩
  | .dual _ => .error (.unsupportedExponentType "Dual")
  | .other t => .error (.unsupportedExponentType t)

end Dual

/-- `value_and_derivative_at_point` of `duals.py`: builds the seed
`Dual(point, 1)`, applies the function to it, and returns the pair
`(result.real_part, result.dual_part)` (the `print` is I/O only and is
not part of the value).  The function may fail with a `DualError`, in
which case so does the evaluator. -/
def value_and_derivative_at_point (f : Dual → Except DualError Dual) (point : ℚ) :
    Except DualError (ℚ × ℚ) := do
  let result ← f ⟨point, 1⟩
  pure (result.real_part, result.dual_part)

/-- The demo polynomial `x**2 + 7*x - 18`, composed from the embedded
operator methods exactly as Python dispatches it: `x**2` calls
`__pow__` with scalar `2`; `7*x` calls `int.__mul__` (which returns
`NotImplemented`) and then `x.__rmul__(7)`, the scalar branch of
`__mul__`; the sum is dual-dual `__add__`; `- 18` is the scalar branch
of `__sub__`. -/
def samplePoly (x : Dual) : Except DualError Dual := do
  let sq ← x.dpow (.scalar 2)
  let lin ← x.rmul (.scalar 7)
  let s ← sq.add (.dual lin)
  s.sub (.scalar 18)

/-- C1: the spec claims the product of two dual numbers follows the
product rule — `(X*Y).dual_part = X.real*Y.dual + Y.real*X.dual`.  The
code instead returns `self.dual_part + other.dual_part`, contradicting
the derivation in its own comment: at `X = (4, 3)`, `Y = (5, 7)` the
code yields dual part `10`, while the product rule requires `43`. -/
theorem C1_product_rule_bug :
    Dual.mul ⟨4, 3⟩ (.dual ⟨5, 7⟩) = .ok ⟨20, 10⟩ ∧
    (4 : ℚ) * 7 + 5 * 3 = 43 ∧ (10 : ℚ) ≠ 43 := by
  refine ⟨?_, by norm_num, by norm_num⟩
  simp only [Dual.mul, Except.ok.injEq, Dual.mk.injEq]
  norm_num

/-- C2: the spec claims reflected subtraction `c - X` yields
`Dual(c - X.real, -X.dual)`.  The code aliases `__rsub__ = __sub__`, so
`0 - Dual(1, 2)` is computed as `Dual(1, 2) - 0 = Dual(1, 2)` rather
than the required `Dual(0 - 1, -2)`. -/
theorem C2_reflected_sub_bug :
    Dual.rsub ⟨1, 2⟩ (.scalar 0) = .ok ⟨1, 2⟩ ∧
    Dual.rsub ⟨1, 2⟩ (.scalar 0) ≠ .ok ⟨0 - 1, -2⟩ := by
  constructor
  · simp only [Dual.rsub, Dual.sub, Except.ok.injEq, Dual.mk.injEq]
    norm_num
  · simp only [Dual.rsub, Dual.sub, ne_eq, Except.ok.injEq, Dual.mk.injEq, not_and]
    norm_num

/-- C3: the spec claims a scalar operand behaves like the promoted
constant `DualNumber(c, 0)`.  At `X = (4, 3)`, `c = 2` this fails for
both multiplication (scalar path scales the dual part to `6`, dual-dual
path adds the dual parts giving `3`) and division (scalar path keeps
the dual part `3`, dual-dual quotient rule gives `3/2`). -/
theorem C3_promotion_bug :
    Dual.mul ⟨4, 3⟩ (.scalar 2) = .ok ⟨8, 6⟩ ∧
    Dual.mul ⟨4, 3⟩ (.dual ⟨2, 0⟩) = .ok ⟨8, 3⟩ ∧
    Dual.mul ⟨4, 3⟩ (.scalar 2) ≠ Dual.mul ⟨4, 3⟩ (.dual ⟨2, 0⟩) ∧
    Dual.truediv ⟨4, 3⟩ (.scalar 2) = .ok ⟨2, 3⟩ ∧
    Dual.truediv ⟨4, 3⟩ (.dual ⟨2, 0⟩) = .ok ⟨2, 3 / 2⟩ ∧
    Dual.truediv ⟨4, 3⟩ (.scalar 2) ≠ Dual.truediv ⟨4, 3⟩ (.dual ⟨2, 0⟩) := by
  refine ⟨?_, ?_, ?_, ?_, ?_, ?_⟩ <;>
    · simp only [Dual.mul, Dual.truediv, ne_eq, Except.ok.injEq, Dual.mk.injEq, not_and]
      norm_num

/-- C4: the spec claims reflected division `c / X` yields
`Dual(c / X.real, -c * X.dual / X.real ^ 2)`.  The scalar branch of
`__rdiv__` instead returns `Dual(c / X.real, 1 / X.dual)`: at `c = 1`,
`X = (2, 1)` the code yields dual part `1`, while the quotient of the
promoted constant requires `-(1 * 1) / 2 ^ 2 = -1/4`.  (Moreover
`__rdiv__` is a Python 2 hook that Python 3 `/` never invokes.) -/
theorem C4_reflected_div_bug :
    Dual.rdiv ⟨2, 1⟩ (.scalar 1) = .ok ⟨1 / 2, 1⟩ ∧
    Dual.rdiv ⟨2, 1⟩ (.scalar 1) ≠ .ok ⟨1 / 2, -(1 * 1) / 2 ^ 2⟩ := by
  constructor
  · simp only [Dual.rdiv, Except.ok.injEq, Dual.mk.injEq]
    norm_num
  · simp only [Dual.rdiv, ne_eq, Except.ok.injEq, Dual.mk.injEq, not_and]
    norm_num

/-- C5: every binary operation given an operand that is neither a dual
number nor a numeric scalar produces the unsupported-operand error
value (never a non-error result), and `**` with a dual exponent
produces the unsupported-exponent error value. -/
theorem C5_unsupported_operand_errors (x : Dual) (t : String) (e : Dual) :
    x.add (.other t) = .error (.unsupportedOperandType t) ∧
    x.sub (.other t) = .error (.unsupportedOperandType t) ∧
    x.mul (.other t) = .error (.unsupportedOperandType t) ∧
    x.truediv (.other t) = .error (.unsupportedOperandType t) ∧
    x.dpow (.dual e) = .error (.unsupportedExponentType "Dual") :=
  ⟨rfl, rfl, rfl, rfl, rfl⟩

/-- C6: dual-dual division follows the quotient rule: for
`Y.real_part ≠ 0`, `(X/Y).real_part = X.real/Y.real` and
`(X/Y).dual_part = (X.dual*Y.real - Y.dual*X.real) / Y.real ^ 2`. -/
theorem C6_quotient_rule (x y : Dual) (hy : y.real_part ≠ 0) :
    x.truediv (.dual y) =
      .ok ⟨x.real_part / y.real_part,
        (x.dual_part * y.real_part - y.dual_part * x.real_part) / y.real_part ^ 2⟩ :=
  rfl

/-- Concrete instance of the quotient rule at `X = (4, 3)`,
`Y = (5, 7)`. -/
theorem C6_quotient_rule_witness :
    (Dual.mk 5 7).real_part ≠ 0 ∧
    Dual.truediv ⟨4, 3⟩ (.dual ⟨5, 7⟩) =
      .ok ⟨(4 : ℚ) / 5, ((3 : ℚ) * 5 - 7 * 4) / 5 ^ 2⟩ :=
  ⟨by norm_num, C6_quotient_rule ⟨4, 3⟩ ⟨5, 7⟩ (by norm_num)⟩

/-- C7: `**` with a numeric exponent follows the power rule
`(a ** n) = Dual(a.real ^ n, n * a.dual * a.real ^ (n-1))`; in
particular `X ** 1 = X` always, and `X ** 0 = Dual(1, 0)` whenever
`X.real_part ≠ 0`. -/
theorem C7_power_rule (a : Dual) (n : ℤ) :
    a.dpow (.scalar n) =
      .ok ⟨a.real_part ^ n, (n : ℚ) * a.dual_part * a.real_part ^ (n - 1)⟩ ∧
    a.dpow (.scalar 1) = .ok a ∧
    (a.real_part ≠ 0 → a.dpow (.scalar 0) = .ok ⟨1, 0⟩) := by
  refine ⟨rfl, ?_, fun h => ?_⟩
  · simp [Dual.dpow]
  · simp [Dual.dpow]

/-- Concrete instance of the power rule at `X = (3, 5)`, exponent
`0`. -/
theorem C7_power_rule_witness :
    (Dual.mk 3 5).real_part ≠ 0 ∧ Dual.dpow ⟨3, 5⟩ (.scalar 0) = .ok ⟨1, 0⟩ :=
  ⟨by norm_num, (C7_power_rule ⟨3, 5⟩ 0).2.2 (by norm_num)⟩

/-- C8: evaluating the demo polynomial `x**2 + 7*x - 18` through the
derivative evaluator at `x = 7` yields the value `80` and the
derivative `21`. -/
theorem C8_demo_polynomial :
    value_and_derivative_at_point samplePoly 7 = .ok (80, 21) := by
  simp only [value_and_derivative_at_point, samplePoly, Dual.dpow, Dual.rmul, Dual.mul,
    Dual.add, Dual.sub, Except.bind, bind, pure, Except.pure, Except.ok.injEq, Prod.mk.injEq]
  norm_num

/-- C9: dual-dual addition and multiplication are commutative in both
fields (multiplication stays commutative even though its dual part is
the buggy `b + d` rather than the product rule). -/
theorem C9_commutativity (x y : Dual) :
    x.add (.dual y) = y.add (.dual x) ∧ x.mul (.dual y) = y.mul (.dual x) := by
  constructor <;> simp [Dual.add, Dual.mul, add_comm, mul_comm]

/-- C10: the evaluator seeds `Dual(x, 1)`, applies the function, and
returns the pair of parts of the result; on the identity function it
returns `(p, 1)` for every point `p`. -/
theorem C10_evaluator_contract (f : Dual → Except DualError Dual) (p : ℚ) :
    value_and_derivative_at_point f p =
      (f ⟨p, 1⟩).map (fun r => (r.real_part, r.dual_part)) ∧
    value_and_derivative_at_point (fun x => .ok x) p = .ok (p, 1) := by
  constructor
  · unfold value_and_derivative_at_point
    cases f ⟨p, 1⟩ <;> rfl
  · rfl
